import Mathlib

/-
  Verification of the task-graph evaluation engine clients:
  gridtools/EvaluateFunctionOnGrid.cpp and symfunc/Tetrahedral.cpp.

  The C++ is shallowly embedded: the constructor of EvaluateFunctionOnGrid
  becomes an Except-valued function (PLUMED's Action::error aborts setup,
  so a raised configuration error means no object is ever produced),
  performTask becomes a pure update of a MultiValue record, and
  Tetrahedral::compute becomes real-valued functions (doubles are modelled
  as reals).
-/

namespace PLMD

namespace gridtools

/-- A resolved argument Value: its name and its shape (PLMD::Value keeps
rank = shape.size(), so the rank is the length of the shape list). -/
structure ArgValue where
  name : String
  shape : List Nat
deriving DecidableEq

instance : Inhabited ArgValue := ⟨⟨"", []⟩⟩

/-- The inner loop of EvaluateFunctionOnGrid's constructor, lines 63-65:
walk dimension index j over the first argument's rank and raise
"mismatched shapes for arguments" at the first differing entry.  It is
only invoked after the rank check, so the two lists have equal length. -/
def checkShapeDims : List Nat → List Nat → Except String Unit
  | j0 :: r0, ji :: ri =>
    if j0 ≠ ji then .error "mismatched shapes for arguments"
    else checkShapeDims r0 ri
  | _, _ => .ok ()

/-- One iteration of the constructor's argument check (lines 62-65):
compare argv[0] against argv[i], ranks first, then each dimension. -/
def checkArgPair (a0 ai : ArgValue) : Except String Unit :=
  if a0.shape.length ≠ ai.shape.length then .error "mismatched ranks for arguments"
  else checkShapeDims a0.shape ai.shape

/-- The loop of lines 61-66 proper: compare argv[0] against argv[i] for
i = 1, ..., argv.size()-1, stopping at the first error. -/
def checkAgainstFirst (a0 : ArgValue) : List ArgValue → Except String Unit
  | [] => .ok ()
  | ai :: rest =>
    match checkArgPair a0 ai with
    | .error e => .error e
    | .ok _ => checkAgainstFirst a0 rest

/-- Lines 61-66 of EvaluateFunctionOnGrid.cpp: verify that all resolved
arguments share the rank and shape of the first one. -/
def checkArgList : List ArgValue → Except String Unit
  | [] => .ok ()
  | a0 :: rest => checkAgainstFirst a0 rest

/-- The state of a successfully constructed EvaluateFunctionOnGrid action:
the arg_ends bookkeeping, the argument count after requestArguments
(getNumberOfArguments()), the output shape, and the derivative slot
count nderivatives. -/
structure EvaluateFunctionOnGrid where
  arg_ends : List Nat
  numArgs : Nat
  shape : List Nat
  nderivatives : Nat
deriving DecidableEq

/-- The constructor body of EvaluateFunctionOnGrid (lines 45-87).
Inputs that the base classes supply are parameters: gval is the grid
argument (getPntrToArgument(0)); gtype and argn come from
getInfoForGridHeader; resolve stands for interpretArgumentList (name to
Value lookup); distinct_arguments and chainDerivCount stand for the
chain bookkeeping of ActionWithValue (distinct_arguments set and the
result of setupActionInChain(1)).  Action::error aborts construction,
hence the Except result: on error no object exists and no task can run. -/
def construct (gval : ArgValue) (gtype : String) (argn : List String)
    (resolve : String → ArgValue) (distinct_arguments : List Nat)
    (chainDerivCount : Nat) : Except String EvaluateFunctionOnGrid :=
  -- line 54: fibonacci grids cannot be interpolated on
  if gtype = "fibonacci" then .error "cannot interpolate on fibonacci sphere"
  else
    -- lines 56-57: arg_ends := [1, 2, 2+1, ...]
    let arg_ends := 1 :: (List.range gval.shape.length).map (fun i => 2 + i)
    -- line 59: interpretArgumentList( argn, argv )
    let argv := argn.map resolve
    -- lines 61-66: rank/shape validation
    match checkArgList argv with
    | .error e => .error e
    | .ok _ =>
      -- lines 68-74: req_arg := [grid argument, argv...]; requestArguments
      let req_arg := gval :: argv
      -- lines 77-80: the output value has argv[0]'s shape
      let shape := (argv.headI).shape
      -- lines 85-86: nderivatives defaults to getNumberOfArguments(),
      -- replaced by setupActionInChain(1) when distinct_arguments is nonempty
      let nderivatives :=
        if distinct_arguments.length > 0 then chainDerivCount else req_arg.length
      .ok { arg_ends := arg_ends, numArgs := req_arg.length,
            shape := shape, nderivatives := nderivatives }

/-- checkShapeDims accepts two equal shape lists. -/
theorem checkShapeDims_self (s : List Nat) : checkShapeDims s s = .ok () := by
  induction s with
  | nil => rfl
  | cons a r ih => simp [checkShapeDims, ih]

/-- checkShapeDims rejects two different shape lists of equal length with
the "mismatched shapes" error. -/
theorem checkShapeDims_ne {s t : List Nat} (hl : s.length = t.length)
    (hne : s ≠ t) : checkShapeDims s t = .error "mismatched shapes for arguments" := by
  induction s generalizing t with
  | nil =>
    cases t with
    | nil => exact absurd rfl hne
    | cons b r => simp at hl
  | cons a r ih =>
    cases t with
    | nil => simp at hl
    | cons b q =>
      by_cases hab : a = b
      · subst hab
        have hrq : r ≠ q := by
          intro h; exact hne (by rw [h])
        simp only [checkShapeDims, ne_eq, not_true_eq_false, if_neg, ite_false]
        simpa [checkShapeDims] using ih (by simpa using hl) hrq
      · simp [checkShapeDims, hab]

/-- If every argument in the list has the first argument's rank and some
argument's shape differs from the first one's, the constructor's loop
raises the "mismatched shapes" configuration error. -/
theorem checkAgainstFirst_error (a0 : ArgValue) (rest : List ArgValue)
    (hrank : ∀ a ∈ rest, a.shape.length = a0.shape.length)
    (hex : ∃ a ∈ rest, a.shape ≠ a0.shape) :
    checkAgainstFirst a0 rest = .error "mismatched shapes for arguments" := by
  induction rest with
  | nil => simp at hex
  | cons b bs ih =>
    by_cases hb : b.shape = a0.shape
    · have hpair : checkArgPair a0 b = .ok () := by
        simp [checkArgPair, hb, checkShapeDims_self]
      have hex2 : ∃ a ∈ bs, a.shape ≠ a0.shape := by
        rcases hex with ⟨a, ha, hane⟩
        rcases List.mem_cons.mp ha with h | h
        · exact absurd (h ▸ hane) (by simp [hb])
        · exact ⟨a, h, hane⟩
      have := ih (fun a ha => hrank a (List.mem_cons_of_mem _ ha)) hex2
      simp [checkAgainstFirst, hpair, this]
    · have hlen : a0.shape.length = b.shape.length :=
        (hrank b (List.mem_cons_self _ _)).symm
      have hpair : checkArgPair a0 b = .error "mismatched shapes for arguments" := by
        simp only [checkArgPair, hlen, ne_eq, not_true_eq_false, ite_false, if_neg]
        exact checkShapeDims_ne hlen (fun h => hb (by rw [← h]))
      simp [checkAgainstFirst, hpair]

/-- Bool test: needle is a leading segment of hay (character lists). -/
def listStarts : List Char → List Char → Bool
  | [], _ => true
  | _ :: _, [] => false
  | a :: as, b :: bs => a == b && listStarts as bs

/-- Bool test: needle occurs contiguously somewhere inside hay. -/
def listContainsSub (needle : List Char) : List Char → Bool
  | [] => listStarts needle []
  | b :: rest => listStarts needle (b :: rest) || listContainsSub needle rest

/-- Shared helper: a same-rank shape mismatch among the resolved
arguments makes the constructor return the "mismatched shapes" error. -/
theorem construct_error_of_shape_mismatch (gval : ArgValue) (gtype : String)
    (argn : List String) (resolve : String → ArgValue)
    (dargs : List Nat) (cdc : Nat)
    (hgt : gtype ≠ "fibonacci")
    (hrank : ∀ a ∈ argn.map resolve, ∀ b ∈ argn.map resolve,
      a.shape.length = b.shape.length)
    (hex : ∃ a ∈ argn.map resolve, ∃ b ∈ argn.map resolve, a.shape ≠ b.shape) :
    construct gval gtype argn resolve dargs cdc
      = .error "mismatched shapes for arguments" := by
  rcases hex with ⟨a, ha, b, hb, hab⟩
  cases hargv : argn.map resolve with
  | nil => rw [hargv] at ha; simp at ha
  | cons a0 rest =>
    rw [hargv] at ha hb hrank
    have hrank0 : ∀ c ∈ rest, c.shape.length = a0.shape.length := fun c hc =>
      hrank c (List.mem_cons_of_mem _ hc) a0 (List.mem_cons_self _ _)
    have hexr : ∃ c ∈ rest, c.shape ≠ a0.shape := by
      by_cases haa : a.shape = a0.shape
      · have hbb : b.shape ≠ a0.shape := fun h => hab (by rw [haa, h])
        rcases List.mem_cons.mp hb with h | h
        · exact absurd (h ▸ hbb) (by simp)
        · exact ⟨b, h, hbb⟩
      · rcases List.mem_cons.mp ha with h | h
        · exact absurd (h ▸ haa) (by simp)
        · exact ⟨a, h, haa⟩
    have hchk : checkArgList (argn.map resolve)
        = .error "mismatched shapes for arguments" := by
      rw [hargv]
      exact checkAgainstFirst_error a0 rest hrank0 hexr
    simp only [construct, if_neg hgt, hchk]

/-- C2: whenever the upstream grid is interpolatable and the resolved
sampled-coordinate arguments all have the same rank but two of them
differ in shape, the constructor fails with the configuration error
"mismatched shapes for arguments" (which mentions "mismatched shapes");
no object is constructed, so no task can ever execute. -/
theorem construct_shape_mismatch_fails (gval : ArgValue) (gtype : String)
    (argn : List String) (resolve : String → ArgValue)
    (dargs : List Nat) (cdc : Nat)
    (hgt : gtype ≠ "fibonacci")
    (hrank : ∀ a ∈ argn.map resolve, ∀ b ∈ argn.map resolve,
      a.shape.length = b.shape.length)
    (hex : ∃ a ∈ argn.map resolve, ∃ b ∈ argn.map resolve, a.shape ≠ b.shape) :
    construct gval gtype argn resolve dargs cdc
      = .error "mismatched shapes for arguments"
    ∧ listContainsSub ("mismatched shapes".toList)
        ("mismatched shapes for arguments".toList) = true :=
  ⟨construct_error_of_shape_mismatch gval gtype argn resolve dargs cdc
      hgt hrank hex, by decide⟩

/-- Witness for C2 at the spec's concrete scenario: two sampled-coordinate
arguments of shapes (10,) and (12,) make construction fail with the
"mismatched shapes" configuration error. -/
theorem construct_shape_mismatch_fails_witness :
    ("grid" : String) ≠ "fibonacci"
    ∧ (construct ⟨"g", [5]⟩ "grid" ["a1", "a2"]
        (fun n => if n = "a2" then ⟨"a2", [12]⟩ else ⟨"a1", [10]⟩) [] 0
          = .error "mismatched shapes for arguments"
      ∧ listContainsSub ("mismatched shapes".toList)
          ("mismatched shapes for arguments".toList) = true) :=
  ⟨by decide,
    construct_shape_mismatch_fails ⟨"g", [5]⟩ "grid" ["a1", "a2"]
      (fun n => if n = "a2" then ⟨"a2", [12]⟩ else ⟨"a1", [10]⟩) [] 0
      (by decide) (by decide) (by decide)⟩

/-- C6: on a fibonacci-sphere grid the constructor raises its
configuration error immediately (line 54), before any argument
bookkeeping, task creation or derivative setup: the Except result is an
error, so no partially constructed object is retained and no task runs. -/
theorem construct_fibonacci_fails (gval : ArgValue) (gtype : String)
    (argn : List String) (resolve : String → ArgValue)
    (dargs : List Nat) (cdc : Nat) (hgt : gtype = "fibonacci") :
    construct gval gtype argn resolve dargs cdc
      = .error "cannot interpolate on fibonacci sphere" := by
  simp [construct, hgt]

/-- Witness for C6: a concrete fibonacci grid is rejected. -/
theorem construct_fibonacci_fails_witness :
    ("fibonacci" : String) = "fibonacci"
    ∧ construct ⟨"g", [5]⟩ "fibonacci" [] (fun _ => ⟨"", []⟩) [] 0
        = .error "cannot interpolate on fibonacci sphere" :=
  ⟨rfl, construct_fibonacci_fails ⟨"g", [5]⟩ "fibonacci" [] (fun _ => ⟨"", []⟩)
    [] 0 rfl⟩

/-- C8: after a successful construction, nderivatives equals the
action's own argument count when the distinct-arguments set is empty,
and equals the chained derivative count otherwise (lines 85-86). -/
theorem nderivatives_default_or_chain (gval : ArgValue) (gtype : String)
    (argn : List String) (resolve : String → ArgValue)
    (dargs : List Nat) (cdc : Nat) (op : EvaluateFunctionOnGrid)
    (h : construct gval gtype argn resolve dargs cdc = .ok op) :
    (dargs = [] → op.nderivatives = op.numArgs)
    ∧ (dargs ≠ [] → op.nderivatives = cdc) := by
  by_cases hgt : gtype = "fibonacci"
  · simp [construct, hgt] at h
  · cases hchk : checkArgList (argn.map resolve) with
    | error e => simp [construct, if_neg hgt, hchk] at h
    | ok u =>
      simp only [construct, if_neg hgt, hchk, Except.ok.injEq] at h
      subst h
      constructor
      · intro hd; subst hd; simp
      · intro hd
        have : dargs.length > 0 := by
          cases dargs with
          | nil => exact absurd rfl hd
          | cons x xs => simp
        simp [this]

/-- Witness for C8 at a concrete well-formed construction with an empty
distinct-arguments set: nderivatives equals the argument count. -/
theorem nderivatives_default_or_chain_witness :
    construct ⟨"g", [3]⟩ "flat" ["a"] (fun _ => ⟨"a", [3]⟩) [] 7
      = .ok ⟨[1, 2], 2, [3], 2⟩
    ∧ (([] : List Nat) = [] →
        (⟨[1, 2], 2, [3], 2⟩ : EvaluateFunctionOnGrid).nderivatives
          = (⟨[1, 2], 2, [3], 2⟩ : EvaluateFunctionOnGrid).numArgs) :=
  ⟨by rfl,
    (nderivatives_default_or_chain ⟨"g", [3]⟩ "flat" ["a"] (fun _ => ⟨"a", [3]⟩)
      [] 7 ⟨[1, 2], 2, [3], 2⟩ (by rfl)).1⟩

/-- Concrete resolver used by the C5 artifacts: "beta" has shape (12,),
everything else has shape (10,). -/
def resolveW : String → ArgValue :=
  fun n => if n = "beta" then ⟨"beta", [12]⟩ else ⟨"alpha", [10]⟩

/-- Concrete resolver with a rank-2 mismatch in dimension 1 at argument
"gamma": "gamma" has shape (4,9), everything else (4,7). -/
def resolveW2 : String → ArgValue :=
  fun n => if n = "gamma" then ⟨"gamma", [4, 9]⟩ else ⟨"ab", [4, 7]⟩

/-- C5 counterexample: two constructions whose shape mismatches occur at
different arguments ("beta" at dimension 0, "gamma" at dimension 1)
raise the identical fixed error "mismatched shapes for arguments"; that
string contains neither offending argument's name nor any digit, so the
error names no argument and no dimension index. -/
theorem shape_error_names_nothing_cex :
    construct ⟨"g", [5]⟩ "grid" ["alpha", "beta"] resolveW [] 0
      = .error "mismatched shapes for arguments"
    ∧ construct ⟨"g", [5]⟩ "grid" ["ab", "ab2", "gamma"] resolveW2 [] 0
      = .error "mismatched shapes for arguments"
    ∧ listContainsSub ("beta".toList)
        ("mismatched shapes for arguments".toList) = false
    ∧ listContainsSub ("gamma".toList)
        ("mismatched shapes for arguments".toList) = false
    ∧ ("mismatched shapes for arguments".toList.all fun c => !c.isDigit)
        = true := by
  refine ⟨by rfl, by rfl, by decide, by decide, by decide⟩

/-- C5 amended: the configuration error raised for a construction-time
shape mismatch is the fixed string "mismatched shapes for arguments",
whichever argument i and dimension j the mismatch occurs at - the
message does not depend on i or j, hence names neither. -/
theorem shape_error_constant_message (gval : ArgValue) (gtype : String)
    (argn : List String) (resolve : String → ArgValue)
    (dargs : List Nat) (cdc : Nat) (i j : Nat)
    (hgt : gtype ≠ "fibonacci")
    (hrank : ∀ a ∈ argn.map resolve, ∀ b ∈ argn.map resolve,
      a.shape.length = b.shape.length)
    (hi : i < (argn.map resolve).length)
    (hj : ((argn.map resolve).get ⟨i, hi⟩).shape.getD j 0
        ≠ ((argn.map resolve).headI).shape.getD j 0) :
    construct gval gtype argn resolve dargs cdc
      = .error "mismatched shapes for arguments" := by
  apply construct_error_of_shape_mismatch gval gtype argn resolve dargs cdc
    hgt hrank
  refine ⟨(argn.map resolve).get ⟨i, hi⟩, List.get_mem _ _ _,
    (argn.map resolve).headI, ?_, fun hEq => hj (by rw [hEq])⟩
  cases hargv : argn.map resolve with
  | nil => rw [hargv] at hi; simp at hi
  | cons a0 rest => simp

/-- Witness for the C5 amended statement: mismatch at argument index 1
("beta"), dimension 0; the error is the fixed message. -/
theorem shape_error_constant_message_witness :
    (1 < ((["alpha", "beta"]).map resolveW).length
      ∧ ((["alpha", "beta"].map resolveW).getD 1 default).shape.getD 0 0
          ≠ (((["alpha", "beta"]).map resolveW).headI).shape.getD 0 0)
    ∧ construct ⟨"g", [5]⟩ "grid" ["alpha", "beta"] resolveW [] 0
        = .error "mismatched shapes for arguments" :=
  ⟨⟨by decide, by decide⟩,
    shape_error_constant_message ⟨"g", [5]⟩ "grid" ["alpha", "beta"] resolveW
      [] 0 1 0 (by decide) (by decide) (by decide) (by decide)⟩

/-- Derived grid metadata: the shape, spacing and periodicity that the
one-time setup derives from the upstream grid header. -/
structure GridMetadata where
  shape : List Nat
  spacing : List ℝ
  pbc : List Bool

/-- Modelled from the spec: the base-class state of ActionWithInputGrid
(not under src/) that prepareForTasks manipulates - the firststep flag,
which starts true, and the lazily derived grid metadata, initially
absent. -/
structure ActionWithInputGridState where
  firststep : Bool
  gridMeta : Option GridMetadata

/-- Modelled from the spec: the initial base-class state; firststep
starts true and no metadata has been derived yet. -/
def initialGridState : ActionWithInputGridState :=
  { firststep := true, gridMeta := none }

/-- Modelled from the spec: setupGridObject (ActionWithInputGrid, not
under src/) performs the one-time grid-metadata derivation from the
upstream header and flips firststep to false. -/
def setupGridObject (derived : GridMetadata) (s : ActionWithInputGridState) :
    ActionWithInputGridState :=
  { s with firststep := false, gridMeta := some derived }

/-- Lines 89-91 of EvaluateFunctionOnGrid.cpp: prepareForTasks runs
setupGridObject exactly when firststep is set; nactive and pTaskList are
ignored by the body, as in the source. -/
def prepareForTasks (nactive : Nat) (pTaskList : List Nat)
    (derived : GridMetadata) (s : ActionWithInputGridState) :
    ActionWithInputGridState :=
  if s.firststep then setupGridObject derived s else s

/-- C7: firststep starts true; the first prepareForTasks call derives the
grid metadata and flips the flag to false; prepareForTasks is idempotent,
so a second invocation in sequence changes nothing (the derived shape,
spacing and periodicity are those of the first call). -/
theorem prepareForTasks_once_then_noop :
    initialGridState.firststep = true
    ∧ (∀ n tl d, (prepareForTasks n tl d initialGridState).firststep = false
        ∧ (prepareForTasks n tl d initialGridState).gridMeta = some d)
    ∧ (∀ n tl n2 tl2 d s,
        prepareForTasks n2 tl2 d (prepareForTasks n tl d s)
          = prepareForTasks n tl d s) := by
  refine ⟨rfl, fun n tl d => ⟨rfl, rfl⟩, fun n tl n2 tl2 d s => ?_⟩
  by_cases hs : s.firststep
  · simp [prepareForTasks, setupGridObject, hs]
  · simp [prepareForTasks, hs]

/-- The per-task scratch stream: accumulated values per output stream
index and accumulated derivatives per (stream, argument slot) pair
(PLMD::MultiValue, modelled as total maps). -/
structure MultiValue where
  values : Nat → ℝ
  derivatives : Nat → Nat → ℝ

/-- MultiValue::addValue: accumulate v into the value slot of stream
ival; derivatives are untouched. -/
noncomputable def MultiValue.addValue (mv : MultiValue) (ival : Nat) (v : ℝ) :
    MultiValue :=
  { mv with values := fun i => if i = ival then mv.values i + v else mv.values i }

/-- Lines 93-102 of EvaluateFunctionOnGrid.cpp.  The parameter f stands
for getFunctionValueAndDerivatives (the grid interpolation of the base
class): it returns the function value together with the derivative of
the value with respect to each sampled-coordinate argument; args holds
the argument values already extracted by retrieveArguments.  The value
is accumulated into the owning output stream ostrn.  The source line
that would store the derivatives (line 101) is commented out, so after
the doNotCalculateDerivatives early return is decided, nothing further
happens in either branch. -/
noncomputable def performTask (doNotCalculateDerivatives : Bool) (ostrn : Nat)
    (f : List ℝ → ℝ × List ℝ) (args : List ℝ) (myvals : MultiValue) :
    MultiValue :=
  let func := (f args).1
  let mv1 := myvals.addValue ostrn func
  if doNotCalculateDerivatives then mv1 else mv1

/-- C1 evaluation: when derivatives are requested
(doNotCalculateDerivatives is false), performTask accumulates the value
into the owning output stream but leaves every derivative slot of the
scratch buffer exactly as it was - the derivative write is absent from
the compiled code (its line is commented out). -/
theorem performTask_drops_derivatives (ostrn : Nat)
    (f : List ℝ → ℝ × List ℝ) (args : List ℝ) (mv : MultiValue) :
    (performTask false ostrn f args mv).derivatives = mv.derivatives
    ∧ (performTask false ostrn f args mv).values ostrn
        = mv.values ostrn + (f args).1 := by
  refine ⟨rfl, ?_⟩
  simp [performTask, MultiValue.addValue]

end gridtools

namespace symfunc

/-- Vector::modulo: the Euclidean length sqrt(x*x + y*y + z*z) of the
distance vector (line 135 of Tetrahedral.cpp uses it as d1). -/
noncomputable def modulo (x y z : ℝ) : ℝ := Real.sqrt (x*x + y*y + z*z)

/-- r3 = pow(d1, 3) (line 136). -/
noncomputable def r3 (x y z : ℝ) : ℝ := modulo x y z ^ 3

/-- r5 = pow(d1, 5) (line 137). -/
noncomputable def r5 (x y z : ℝ) : ℝ := modulo x y z ^ 5

/-- The per-neighbor tetrahedrality tmp of Tetrahedral::compute
(lines 125-139): sp1c/r3 + sp2c/r3 + sp3c/r3 + sp4c/r3 with
sp1 = x+y+z, sp2 = x-y-z, sp3 = -x+y-z, sp4 = -x-y+z, each cubed. -/
noncomputable def tmp (x y z : ℝ) : ℝ :=
  (x + y + z)^3 / r3 x y z + (x - y - z)^3 / r3 x y z
    + (-x + y - z)^3 / r3 x y z + (-x - y + z)^3 / r3 x y z

/-- First component of myder (line 147): tt_i = (3*sp_i*sp_i)/r3,
t_i = (3*sp_i^3)/r5, combined with the signs of d(sp_i)/dx. -/
noncomputable def myderX (x y z : ℝ) : ℝ :=
  (3*(x + y + z)*(x + y + z)/r3 x y z - x*(3*(x + y + z)^3/r5 x y z))
  + (3*(x - y - z)*(x - y - z)/r3 x y z - x*(3*(x - y - z)^3/r5 x y z))
  + (-(3*(-x + y - z)*(-x + y - z)/r3 x y z) - x*(3*(-x + y - z)^3/r5 x y z))
  + (-(3*(-x - y + z)*(-x - y + z)/r3 x y z) - x*(3*(-x - y + z)^3/r5 x y z))

/-- Second component of myder (line 148). -/
noncomputable def myderY (x y z : ℝ) : ℝ :=
  (3*(x + y + z)*(x + y + z)/r3 x y z - y*(3*(x + y + z)^3/r5 x y z))
  + (-(3*(x - y - z)*(x - y - z)/r3 x y z) - y*(3*(x - y - z)^3/r5 x y z))
  + (3*(-x + y - z)*(-x + y - z)/r3 x y z - y*(3*(-x + y - z)^3/r5 x y z))
  + (-(3*(-x - y + z)*(-x - y + z)/r3 x y z) - y*(3*(-x - y + z)^3/r5 x y z))

/-- Third component of myder (line 149). -/
noncomputable def myderZ (x y z : ℝ) : ℝ :=
  (3*(x + y + z)*(x + y + z)/r3 x y z - z*(3*(x + y + z)^3/r5 x y z))
  + (-(3*(x - y - z)*(x - y - z)/r3 x y z) - z*(3*(x - y - z)^3/r5 x y z))
  + (-(3*(-x + y - z)*(-x + y - z)/r3 x y z) - z*(3*(-x + y - z)^3/r5 x y z))
  + (3*(-x - y + z)*(-x - y + z)/r3 x y z - z*(3*(-x - y + z)^3/r5 x y z))

/-- The three-component derivative vector myder of Tetrahedral::compute
(lines 146-149). -/
noncomputable def myder (x y z : ℝ) : ℝ × ℝ × ℝ :=
  (myderX x y z, myderY x y z, myderZ x y z)

/-- C3 counterexample: the per-neighbor tetrahedrality computed by
Tetrahedral::compute at the concrete input (1,0,0) is not 2 - the
cubes are 1, 1, -1, -1, so the sum vanishes. -/
theorem tmp_at_100_ne_two : tmp 1 0 0 ≠ 2 := by
  have h0 : tmp 1 0 0 = 0 := by simp only [tmp]; ring_nf
  rw [h0]
  norm_num

/-- C3 amended: at (1,0,0) the per-neighbor function evaluates to 0
(numerator 1 + 1 - 1 - 1 = 0, with r = 1). -/
theorem tmp_at_100_eq_zero : tmp 1 0 0 = 0 := by
  simp only [tmp]
  ring_nf

/-- C10: for a distance vector with nonzero modulus, the per-neighbor
value is odd under inversion: each sp_i negates, the cubes negate, the
modulus is unchanged, so tmp(-d) = -tmp(d). -/
theorem tmp_odd_under_inversion (x y z : ℝ) (h : modulo x y z ≠ 0) :
    tmp (-x) (-y) (-z) = - tmp x y z := by
  have hm : modulo (-x) (-y) (-z) = modulo x y z := by
    simp only [modulo]
    ring_nf
  simp only [tmp, r3, hm]
  ring

/-- Witness for C10 at the concrete input (1,0,0), whose modulus is 1. -/
theorem tmp_odd_under_inversion_witness :
    modulo 1 0 0 ≠ 0 ∧ tmp (-1) (-0) (-0) = - tmp 1 0 0 :=
  ⟨by rw [modulo]; norm_num,
    tmp_odd_under_inversion 1 0 0 (by rw [modulo]; norm_num)⟩

end symfunc

namespace symfunc

set_option maxHeartbeats 1600000 in
/-- C4: for every distance vector with nonzero modulus, the vector myder
computed by Tetrahedral::compute is the true gradient of the
per-neighbor function tmp: each component is the exact derivative of
tmp along the corresponding coordinate. -/
theorem myder_is_gradient (x y z : ℝ) (h : modulo x y z ≠ 0) :
    HasDerivAt (fun a => tmp a y z) (myder x y z).1 x
    ∧ HasDerivAt (fun a => tmp x a z) (myder x y z).2.1 y
    ∧ HasDerivAt (fun a => tmp x y a) (myder x y z).2.2 z := by
  have hS : x*x + y*y + z*z ≠ 0 := by
    intro h0
    apply h
    simp [modulo, h0]
  have hq : Real.sqrt (x*x + y*y + z*z) ≠ 0 := by
    simpa [modulo] using h
  have hq3 : (Real.sqrt (x*x + y*y + z*z))^3 ≠ 0 := pow_ne_zero 3 hq
  refine ⟨?_, ?_, ?_⟩
  · simp only [tmp, myder, myderX, r3, r5, modulo]
    have hsq : HasDerivAt (fun a : ℝ => a*a + y*y + z*z) (x + x) x := by
      simpa using (((hasDerivAt_id x).mul (hasDerivAt_id x)).add_const (y*y)).add_const (z*z)
    have hrt : HasDerivAt (fun a : ℝ => Real.sqrt (a*a + y*y + z*z))
        ((x + x) / (2 * Real.sqrt (x*x + y*y + z*z))) x := hsq.sqrt hS
    have hden : HasDerivAt (fun a : ℝ => Real.sqrt (a*a + y*y + z*z) ^ 3)
        (3 * Real.sqrt (x*x + y*y + z*z) ^ 2
          * ((x + x) / (2 * Real.sqrt (x*x + y*y + z*z)))) x := by
      simpa using hrt.pow 3
    have hn1 : HasDerivAt (fun a : ℝ => a + y + z) 1 x :=
      ((hasDerivAt_id x).add_const y).add_const z
    have hn2 : HasDerivAt (fun a : ℝ => a - y - z) 1 x :=
      ((hasDerivAt_id x).sub_const y).sub_const z
    have hn3 : HasDerivAt (fun a : ℝ => -a + y - z) (-1) x :=
      (((hasDerivAt_id x).neg).add_const y).sub_const z
    have hn4 : HasDerivAt (fun a : ℝ => -a - y + z) (-1) x :=
      (((hasDerivAt_id x).neg).sub_const y).add_const z
    have hc1 : HasDerivAt (fun a : ℝ => (a + y + z)^3) (3*(x + y + z)^2) x := by
      simpa using hn1.pow 3
    have hc2 : HasDerivAt (fun a : ℝ => (a - y - z)^3) (3*(x - y - z)^2) x := by
      simpa using hn2.pow 3
    have hc3 : HasDerivAt (fun a : ℝ => (-a + y - z)^3) (-(3*(-x + y - z)^2)) x := by
      simpa using hn3.pow 3
    have hc4 : HasDerivAt (fun a : ℝ => (-a - y + z)^3) (-(3*(-x - y + z)^2)) x := by
      simpa using hn4.pow 3
    have hsum := (((hc1.div hden hq3).add (hc2.div hden hq3)).add
      (hc3.div hden hq3)).add (hc4.div hden hq3)
    convert hsum using 1
    field_simp
    ring
  · simp only [tmp, myder, myderY, r3, r5, modulo]
    have hsq : HasDerivAt (fun a : ℝ => x*x + a*a + z*z) (y + y) y := by
      simpa using (((hasDerivAt_id y).mul (hasDerivAt_id y)).const_add (x*x)).add_const (z*z)
    have hrt : HasDerivAt (fun a : ℝ => Real.sqrt (x*x + a*a + z*z))
        ((y + y) / (2 * Real.sqrt (x*x + y*y + z*z))) y := hsq.sqrt hS
    have hden : HasDerivAt (fun a : ℝ => Real.sqrt (x*x + a*a + z*z) ^ 3)
        (3 * Real.sqrt (x*x + y*y + z*z) ^ 2
          * ((y + y) / (2 * Real.sqrt (x*x + y*y + z*z)))) y := by
      simpa using hrt.pow 3
    have hn1 : HasDerivAt (fun a : ℝ => x + a + z) 1 y :=
      ((hasDerivAt_id y).const_add x).add_const z
    have hn2 : HasDerivAt (fun a : ℝ => x - a - z) (-1) y :=
      ((hasDerivAt_id y).const_sub x).sub_const z
    have hn3 : HasDerivAt (fun a : ℝ => -x + a - z) 1 y :=
      ((hasDerivAt_id y).const_add (-x)).sub_const z
    have hn4 : HasDerivAt (fun a : ℝ => -x - a + z) (-1) y :=
      ((hasDerivAt_id y).const_sub (-x)).add_const z
    have hc1 : HasDerivAt (fun a : ℝ => (x + a + z)^3) (3*(x + y + z)^2) y := by
      simpa using hn1.pow 3
    have hc2 : HasDerivAt (fun a : ℝ => (x - a - z)^3) (-(3*(x - y - z)^2)) y := by
      simpa using hn2.pow 3
    have hc3 : HasDerivAt (fun a : ℝ => (-x + a - z)^3) (3*(-x + y - z)^2) y := by
      simpa using hn3.pow 3
    have hc4 : HasDerivAt (fun a : ℝ => (-x - a + z)^3) (-(3*(-x - y + z)^2)) y := by
      simpa using hn4.pow 3
    have hsum := (((hc1.div hden hq3).add (hc2.div hden hq3)).add
      (hc3.div hden hq3)).add (hc4.div hden hq3)
    convert hsum using 1
    field_simp
    ring
  · simp only [tmp, myder, myderZ, r3, r5, modulo]
    have hsq : HasDerivAt (fun a : ℝ => x*x + y*y + a*a) (z + z) z := by
      simpa using ((hasDerivAt_id z).mul (hasDerivAt_id z)).const_add (x*x + y*y)
    have hrt : HasDerivAt (fun a : ℝ => Real.sqrt (x*x + y*y + a*a))
        ((z + z) / (2 * Real.sqrt (x*x + y*y + z*z))) z := hsq.sqrt hS
    have hden : HasDerivAt (fun a : ℝ => Real.sqrt (x*x + y*y + a*a) ^ 3)
        (3 * Real.sqrt (x*x + y*y + z*z) ^ 2
          * ((z + z) / (2 * Real.sqrt (x*x + y*y + z*z)))) z := by
      simpa using hrt.pow 3
    have hn1 : HasDerivAt (fun a : ℝ => x + y + a) 1 z :=
      (hasDerivAt_id z).const_add (x + y)
    have hn2 : HasDerivAt (fun a : ℝ => x - y - a) (-1) z :=
      (hasDerivAt_id z).const_sub (x - y)
    have hn3 : HasDerivAt (fun a : ℝ => -x + y - a) (-1) z :=
      (hasDerivAt_id z).const_sub (-x + y)
    have hn4 : HasDerivAt (fun a : ℝ => -x - y + a) 1 z :=
      (hasDerivAt_id z).const_add (-x - y)
    have hc1 : HasDerivAt (fun a : ℝ => (x + y + a)^3) (3*(x + y + z)^2) z := by
      simpa using hn1.pow 3
    have hc2 : HasDerivAt (fun a : ℝ => (x - y - a)^3) (-(3*(x - y - z)^2)) z := by
      simpa using hn2.pow 3
    have hc3 : HasDerivAt (fun a : ℝ => (-x + y - a)^3) (-(3*(-x + y - z)^2)) z := by
      simpa using hn3.pow 3
    have hc4 : HasDerivAt (fun a : ℝ => (-x - y + a)^3) (3*(-x - y + z)^2) z := by
      simpa using hn4.pow 3
    have hsum := (((hc1.div hden hq3).add (hc2.div hden hq3)).add
      (hc3.div hden hq3)).add (hc4.div hden hq3)
    convert hsum using 1
    field_simp
    ring

/-- Witness for C4 at the concrete input (1,0,0), whose modulus is 1. -/
theorem myder_is_gradient_witness :
    modulo 1 0 0 ≠ 0
    ∧ HasDerivAt (fun a => tmp a 0 0) (myder 1 0 0).1 1 :=
  ⟨by rw [modulo]; norm_num,
    (myder_is_gradient 1 0 0 (by rw [modulo]; norm_num)).1⟩

end symfunc

namespace symfunc

/-- Per-task output slots of a symmetry function: the accumulated value
of component 0, the accumulated derivative with respect to the weight,
and the accumulated vector derivatives (the MultiValue slots that
lines 152-154 of Tetrahedral.cpp write into). -/
structure SymValues where
  value : ℝ
  weightDeriv : ℝ
  vecDeriv : ℝ × ℝ × ℝ

/-- Tetrahedral::compute (lines 124-155): computes tmp and myder from
the distance vector, then accumulates val*tmp into the value, tmp into
the weight derivative and val*myder into the vector derivatives.  The
accumulators addToValue, addWeightDerivative and addVectorDerivatives
live in SymmetryFunctionBase (not under src/); modelled from the spec
as additive accumulation into the owned slots. -/
noncomputable def compute (val : ℝ) (d : ℝ × ℝ × ℝ) (mv : SymValues) :
    SymValues :=
  let t := tmp d.1 d.2.1 d.2.2
  let md := myder d.1 d.2.1 d.2.2
  { value := mv.value + val * t
    weightDeriv := mv.weightDeriv + t
    vecDeriv := (mv.vecDeriv.1 + val * md.1,
      mv.vecDeriv.2.1 + val * md.2.1,
      mv.vecDeriv.2.2 + val * md.2.2) }

end symfunc

/-- C9: the per-task evaluation functions are deterministic - run twice
on identical upstream values and identical freshly-reset scratch
buffers, both the grid evaluation performTask and Tetrahedral::compute
produce identical output (the embedded evaluations are pure functions
of their inputs). -/
theorem evaluate_deterministic (b : Bool) (ostrn : Nat)
    (f : List ℝ → ℝ × List ℝ) (args args2 : List ℝ)
    (mv mv2 : gridtools.MultiValue)
    (val : ℝ) (d : ℝ × ℝ × ℝ) (sv sv2 : symfunc.SymValues)
    (h1 : args = args2) (h2 : mv = mv2) (h3 : sv = sv2) :
    gridtools.performTask b ostrn f args mv
      = gridtools.performTask b ostrn f args2 mv2
    ∧ symfunc.compute val d sv = symfunc.compute val d sv2 := by
  subst h1; subst h2; subst h3
  exact ⟨rfl, rfl⟩

/-- Witness for C9 at concrete inputs: a zeroed MultiValue and zeroed
SymValues, the same on both runs. -/
theorem evaluate_deterministic_witness :
    ([(1 : ℝ)] = [(1 : ℝ)])
    ∧ gridtools.performTask false 0 (fun _ => (5, [1])) [(1 : ℝ)]
        ⟨fun _ => 0, fun _ _ => 0⟩
      = gridtools.performTask false 0 (fun _ => (5, [1])) [(1 : ℝ)]
        ⟨fun _ => 0, fun _ _ => 0⟩
    ∧ symfunc.compute 1 (1, 0, 0) ⟨0, 0, (0, 0, 0)⟩
      = symfunc.compute 1 (1, 0, 0) ⟨0, 0, (0, 0, 0)⟩ :=
  ⟨rfl,
    (evaluate_deterministic false 0 (fun _ => (5, [1])) [(1 : ℝ)] [(1 : ℝ)]
      ⟨fun _ => 0, fun _ _ => 0⟩ ⟨fun _ => 0, fun _ _ => 0⟩
      1 (1, 0, 0) ⟨0, 0, (0, 0, 0)⟩ ⟨0, 0, (0, 0, 0)⟩ rfl rfl rfl).1,
    (evaluate_deterministic false 0 (fun _ => (5, [1])) [(1 : ℝ)] [(1 : ℝ)]
      ⟨fun _ => 0, fun _ _ => 0⟩ ⟨fun _ => 0, fun _ _ => 0⟩
      1 (1, 0, 0) ⟨0, 0, (0, 0, 0)⟩ ⟨0, 0, (0, 0, 0)⟩ rfl rfl rfl).2⟩

end PLMD
